import Mathlib

/-!
# UdemyMERN backend controllers

A shallow embedding of `backend/controllers/places-controller.js` and
`backend/controllers/users-controller.js`.

* The MongoDB store is a pair of document lists (`Db`).  Writes made inside a
  mongoose session are staged on a pending copy and become the committed store
  only when `commitTransaction` succeeds.
* Every external collaborator (store driver, geocoder, bcrypt, jsonwebtoken)
  can fail; its behaviour is supplied by an `Env`.
* A controller run yields a `Result`: how the handler ended (`res.json`,
  `next(error)` or an uncaught exception), the committed store afterwards and
  the ordered list of collaborator calls it made.
-/

namespace UdemyMERN

/-! ## Data model -/

/-- The canonical string form of a MongoDB ObjectId. -/
abbrev Id := String

/-- The `HttpError` objects handed to `next`: a message and a status code. -/
structure HttpError where
  message : String
  code : Nat
  deriving DecidableEq, Repr

/-- JavaScript exceptions raised by the language itself, outside any `try`. -/
inductive JsError where
  | referenceError (ident : String)
  | typeError (reading : String)
  deriving DecidableEq, Repr

/-- Errors thrown by the store driver. -/
inductive StoreError where
  | duplicateKey
  | other
  deriving DecidableEq, Repr

/-- The `{lat, lng}` pair returned by `getCoordsForAddress`; passed through untouched. -/
structure Location where
  lat : Int
  lng : Int
  deriving DecidableEq, Repr

/-- A document of the `users` collection. -/
structure User where
  id : Id
  name : String
  email : String
  image : String
  password : String
  places : List Id
  deriving DecidableEq, Repr

/-- A document of the `places` collection. -/
structure Place where
  id : Id
  title : String
  description : String
  address : String
  location : Location
  image : String
  creator : Id
  deriving DecidableEq, Repr

/-- A place fetched with `.populate("creator")`: the creator field holds the user
document, or `null` when the reference dangles. -/
structure PopulatedPlace where
  doc : Place
  creator : Option User
  deriving DecidableEq, Repr

/-- The committed content of the two collections. -/
structure Db where
  users : List User
  places : List Place
  deriving DecidableEq, Repr

/-! ## Store primitives -/

/-- `User.findById(id)`. -/
def Db.findUserById (db : Db) (id : Id) : Option User :=
  db.users.find? (fun u => decide (u.id = id))

/-- `User.findOne({ email })`. -/
def Db.findUserByEmail (db : Db) (email : String) : Option User :=
  db.users.find? (fun u => decide (u.email = email))

/-- `Place.findById(id)`. -/
def Db.findPlaceById (db : Db) (id : Id) : Option Place :=
  db.places.find? (fun p => decide (p.id = id))

/-- Saving a new place document: an insert, rejected by the `_id` index when the
id is already taken. -/
def Db.insertPlace (db : Db) (p : Place) : Except StoreError Db :=
  if p.id ∈ db.places.map Place.id then .error .duplicateKey
  else .ok { db with places := db.places ++ [p] }

/-- Saving a new user document: an insert, rejected by the `_id` index when the
id is already taken. -/
def Db.insertUser (db : Db) (u : User) : Except StoreError Db :=
  if u.id ∈ db.users.map User.id then .error .duplicateKey
  else .ok { db with users := db.users ++ [u] }

/-- Replace the first user document carrying the id of `doc` (an update by `_id`). -/
def replaceUser (doc : User) : List User → List User
  | [] => []
  | u :: us => if u.id = doc.id then doc :: us else u :: replaceUser doc us

/-- Replace the first place document carrying the id of `doc` (an update by `_id`). -/
def replacePlace (doc : Place) : List Place → List Place
  | [] => []
  | p :: ps => if p.id = doc.id then doc :: ps else p :: replacePlace doc ps

/-- Remove the first place document with the given id (a delete by `_id`). -/
def erasePlace (id : Id) : List Place → List Place
  | [] => []
  | p :: ps => if p.id = id then ps else p :: erasePlace id ps

/-- Saving an already stored user document. -/
def Db.updateUser (db : Db) (doc : User) : Db :=
  { db with users := replaceUser doc db.users }

/-- Saving an already stored place document. -/
def Db.updatePlace (db : Db) (doc : Place) : Db :=
  { db with places := replacePlace doc db.places }

/-- The effect of `place.remove()`. -/
def Db.removePlace (db : Db) (id : Id) : Db :=
  { db with places := erasePlace id db.places }

/-! ## Collaborators and results -/

/-- Behaviour of the external collaborators during one request. -/
structure Env where
  /-- Result of `getCoordsForAddress(address)`; an error is what it throws. -/
  geocode : String → Except HttpError Location
  /-- The `_id` mongoose assigns to a freshly constructed document. -/
  newId : Id
  /-- The read query (`findById` / `findOne`) throws. -/
  findFails : Bool
  /-- The call `mongoose.startSession()` throws. -/
  startSessionFails : Bool
  /-- The write of the place document (`save` / `remove`) throws this error. -/
  placeWriteError : Option StoreError
  /-- The write of the user document (`save`) throws this error. -/
  userWriteError : Option StoreError
  /-- The call `commitTransaction()` throws. -/
  commitFails : Bool
  /-- Result of `bcrypt.hash(password, cost)`; `none` when it throws. -/
  hash : String → Nat → Option String
  /-- Result of `bcrypt.compare(password, hash)`; `none` when it throws. -/
  compare : String → String → Option Bool
  /-- Result of `jwt.sign({userId, email}, "private_key", {expiresIn: "1h"})`;
  `none` when it throws. -/
  sign : Id → String → Option String

/-- Calls made to the collaborators, in program order. -/
inductive Effect where
  | geocode (address : String)
  | findUserById (id : Id)
  | findUserByEmail (email : String)
  | findPlaceById (id : Id)
  | startSession
  | startTransaction
  | savePlace (id : Id)
  | removePlace (id : Id)
  | saveUser (id : Id)
  | commitTransaction
  | abortTransaction
  | hash
  | compare
  | sign
  | unlink (path : String)
  deriving DecidableEq, Repr

/-- Payloads given to `res.json`. -/
inductive Body where
  | createdPlace (p : Place)
  | updatedPlace (p : Place)
  | message (m : String)
  | auth (userId : Id) (email : String) (token : String)
  deriving DecidableEq, Repr

/-- How a handler ends. -/
inductive Outcome where
  | json (status : Nat) (body : Body)
  | next (e : HttpError)
  | thrown (e : JsError)
  deriving DecidableEq, Repr

/-- Outcome of a handler, committed store afterwards, and the calls it made. -/
structure Result where
  outcome : Outcome
  db : Db
  trace : List Effect
  deriving DecidableEq, Repr

/-! ## JavaScript expression semantics used by the ownership checks -/

/-- The JavaScript values occurring in the ownership comparisons. -/
inductive JsVal where
  | bool (b : Bool)
  | str (s : String)
  deriving DecidableEq, Repr

/-- Logical not `!v`: the negation of `ToBoolean(v)`; the empty string is falsy. -/
def JsVal.not : JsVal → Bool
  | .bool b => !b
  | .str s => decide (s = "")

/-- Strict inequality `a !== b`: values of different types are never equal. -/
def JsVal.strictNe : JsVal → JsVal → Bool
  | .bool a, .bool b => decide (a ≠ b)
  | .str a, .str b => decide (a ≠ b)
  | _, _ => true

/-- What an identifier in scope is bound to. -/
inductive Binding where
  | placeDoc (p : PopulatedPlace)
  | value
  deriving DecidableEq, Repr

/-- Module-level bindings of `places-controller.js`: the `require`d names and the
handlers themselves. -/
def placesControllerScope : List (String × Binding) :=
  [("uuid", .value), ("fs", .value), ("validationResult", .value),
   ("mongoose", .value), ("HttpError", .value), ("getCoordsForAddress", .value),
   ("Place", .value), ("User", .value), ("getPlaceById", .value),
   ("getPlacesByUserId", .value), ("createPlace", .value),
   ("updatePlace", .value), ("deletePlace", .value)]

/-- Bindings visible at the ownership check of `deletePlace`. -/
def deletePlaceScope (place : PopulatedPlace) : List (String × Binding) :=
  [("req", .value), ("res", .value), ("next", .value), ("placeId", .value),
   ("place", .placeDoc place)] ++ placesControllerScope

/-- Evaluate the member expression `<ident>.creator.id`. -/
def evalCreatorId (scope : List (String × Binding)) (ident : String) : Except JsError Id :=
  match scope.lookup ident with
  | none => .error (.referenceError ident)
  | some (.placeDoc p) =>
    match p.creator with
    | none => .error (.typeError "id")
    | some u => .ok u.id
  | some .value => .error (.typeError "id")

/-- Identifiers visible inside the `catch (err)` block around `jwt.sign` in
`signup` and `login` (the two handlers share the same names). -/
def signCatchScope : List String :=
  ["err", "token", "createdUser", "hashedPassword", "isValidPassword", "existingUser",
   "name", "email", "password", "errors", "req", "res", "next",
   "uuid", "validationResult", "bcrypt", "jwt", "HttpError", "User",
   "getUsers", "signup", "login", "console"]

/-- Evaluate a bare identifier: unbound names raise a `ReferenceError`. -/
def resolveIdent (scope : List String) (ident : String) : Except JsError Unit :=
  if ident ∈ scope then .ok () else .error (.referenceError ident)

/-- A store write as seen by the handler: the injected driver error if any,
otherwise the outcome of the write itself. -/
def attempt (injected : Option StoreError) (write : Except StoreError Db) : Except StoreError Db :=
  match injected with
  | some e => .error e
  | none => write

/-! ## Requests -/

/-- Request of `createPlace`: `valid` is `validationResult(req).isEmpty()`, `file`
is `req.file.path` when an upload is attached. -/
structure CreatePlaceReq where
  valid : Bool
  title : String
  description : String
  address : String
  creator : Id
  file : Option String

/-- Request of `updatePlace`: `pid` is `req.params.pid`, `userId` is
`req.userData.userId`. -/
structure UpdatePlaceReq where
  valid : Bool
  pid : Id
  title : String
  description : String
  userId : String

/-- Request of `deletePlace`. -/
structure DeletePlaceReq where
  pid : Id
  userId : String

/-- Request of `signup`. -/
structure SignupReq where
  valid : Bool
  name : String
  email : String
  password : String
  file : Option String

/-- Request of `login`. -/
structure LoginReq where
  email : String
  password : String

/-! ## places-controller.js -/

/-- The document `new Place({...})` built by `createPlace` (lines 80-87). -/
def newPlace (env : Env) (req : CreatePlaceReq) (loc : Location) (path : String) : Place :=
  { id := env.newId, title := req.title, description := req.description,
    address := req.address, location := loc, image := path, creator := req.creator }

/-- The handler `createPlace` (places-controller.js, lines 63-124). -/
def createPlace (db : Db) (env : Env) (req : CreatePlaceReq) : Result :=
  if !req.valid then
    ⟨.next ⟨"Invalid inputs passed, plase check your data", 422⟩, db, []⟩
  else
  match env.geocode req.address with
  | .error e => ⟨.next e, db, [.geocode req.address]⟩
  | .ok coordinates =>
  match req.file with
  | none => ⟨.thrown (.typeError "path"), db, [.geocode req.address]⟩
  | some path =>
  let createdPlace : Place := newPlace env req coordinates path
  let t := [.geocode req.address, .findUserById req.creator]
  if env.findFails then
    ⟨.next ⟨"Creating place failed, please try again", 500⟩, db, t⟩
  else
  match db.findUserById req.creator with
  | none => ⟨.next ⟨"Could not find user for the provided id", 404⟩, db, t⟩
  | some user =>
  let failed : HttpError := ⟨"Creating place failed 2, please try again", 500⟩
  if env.startSessionFails then ⟨.next failed, db, t ++ [.startSession]⟩
  else
  match attempt env.placeWriteError (db.insertPlace createdPlace) with
  | .error _ =>
    ⟨.next failed, db, t ++ [.startSession, .startTransaction, .savePlace createdPlace.id]⟩
  | .ok pending =>
  let pushed : User := { user with places := user.places ++ [createdPlace.id] }
  match attempt env.userWriteError (.ok (pending.updateUser pushed)) with
  | .error _ =>
    ⟨.next failed, db,
      t ++ [.startSession, .startTransaction, .savePlace createdPlace.id, .saveUser user.id]⟩
  | .ok pending2 =>
  if env.commitFails then
    ⟨.next failed, db,
      t ++ [.startSession, .startTransaction, .savePlace createdPlace.id, .saveUser user.id,
            .commitTransaction]⟩
  else
    ⟨.json 201 (.createdPlace createdPlace), pending2,
      t ++ [.startSession, .startTransaction, .savePlace createdPlace.id, .saveUser user.id,
            .commitTransaction]⟩

/-- The handler `updatePlace` (places-controller.js, lines 126-170).  The guard
on line 150 is `!place.creator.toString() !== req.userData.userId`, where `!`
binds tighter than `!==`. -/
def updatePlace (db : Db) (env : Env) (req : UpdatePlaceReq) : Result :=
  if !req.valid then
    ⟨.next ⟨"Invalid inputs passed, plase check your data", 422⟩, db, []⟩
  else
  let t := [.findPlaceById req.pid]
  if env.findFails then
    ⟨.next ⟨"Something went wrong. could not find a place", 500⟩, db, t⟩
  else
  match db.findPlaceById req.pid with
  | none => ⟨.thrown (.typeError "creator"), db, t⟩
  | some place =>
  if JsVal.strictNe (.bool (JsVal.not (.str place.creator))) (.str req.userId) then
    ⟨.next ⟨"You are not allowed to edit this place.", 401⟩, db, t⟩
  else
  let updated : Place := { place with title := req.title, description := req.description }
  match attempt env.placeWriteError (.ok (db.updatePlace updated)) with
  | .error _ =>
    ⟨.next ⟨"Creating place failed, please try again", 500⟩, db, t ++ [.savePlace place.id]⟩
  | .ok db2 => ⟨.json 200 (.updatedPlace updated), db2, t ++ [.savePlace place.id]⟩

/-- The handler `deletePlace` (places-controller.js, lines 172-220).  The guard
on line 193 reads `places.creator.id`, evaluated in the scope of the handler. -/
def deletePlace (db : Db) (env : Env) (req : DeletePlaceReq) : Result :=
  let t := [.findPlaceById req.pid]
  if env.findFails then
    ⟨.next ⟨"Something went wrong. could not find a place", 500⟩, db, t⟩
  else
  match db.findPlaceById req.pid with
  | none => ⟨.next ⟨"Could not find place for the provided id.", 404⟩, db, t⟩
  | some doc =>
  let place : PopulatedPlace := { doc := doc, creator := db.findUserById doc.creator }
  match evalCreatorId (deletePlaceScope place) "places" with
  | .error e => ⟨.thrown e, db, t⟩
  | .ok creatorId =>
  if JsVal.strictNe (.str creatorId) (.str req.userId) then
    ⟨.next ⟨"You are not allow to delete this place.", 401⟩, db, t⟩
  else
  let failed : HttpError := ⟨"Something went wrong, could not delete place", 500⟩
  if env.startSessionFails then ⟨.next failed, db, t ++ [.startSession]⟩
  else
  match attempt env.placeWriteError (.ok (db.removePlace doc.id)) with
  | .error _ =>
    ⟨.next failed, db, t ++ [.startSession, .startTransaction, .removePlace doc.id]⟩
  | .ok pending =>
  match place.creator with
  | none =>
    ⟨.next failed, db, t ++ [.startSession, .startTransaction, .removePlace doc.id]⟩
  | some creator =>
  let pulled : User := { creator with places := creator.places.filter (fun i => decide (i ≠ doc.id)) }
  match attempt env.userWriteError (.ok (pending.updateUser pulled)) with
  | .error _ =>
    ⟨.next failed, db,
      t ++ [.startSession, .startTransaction, .removePlace doc.id, .saveUser creator.id]⟩
  | .ok pending2 =>
  if env.commitFails then
    ⟨.next failed, db,
      t ++ [.startSession, .startTransaction, .removePlace doc.id, .saveUser creator.id,
            .commitTransaction]⟩
  else
    ⟨.json 200 (.message "Place Deleted"), pending2,
      t ++ [.startSession, .startTransaction, .removePlace doc.id, .saveUser creator.id,
            .commitTransaction, .unlink doc.image]⟩

/-! ## users-controller.js -/

/-- The handler `signup` (users-controller.js, lines 25-95). -/
def signup (db : Db) (env : Env) (req : SignupReq) : Result :=
  if !req.valid then
    ⟨.next ⟨"Invalid inputs passed, plase check your data", 422⟩, db, []⟩
  else
  let t := [.findUserByEmail req.email]
  if env.findFails then
    ⟨.next ⟨"Signing up failed, please try again later", 500⟩, db, t⟩
  else
  match db.findUserByEmail req.email with
  | some _ => ⟨.next ⟨"User exists already, please login instead", 422⟩, db, t⟩
  | none =>
  match env.hash req.password 12 with
  | none => ⟨.next ⟨"Could not create user, please try again", 500⟩, db, t ++ [.hash]⟩
  | some hashedPassword =>
  match req.file with
  | none => ⟨.thrown (.typeError "path"), db, t ++ [.hash]⟩
  | some path =>
  let createdUser : User :=
    { id := env.newId, name := req.name, email := req.email, image := path,
      password := hashedPassword, places := [] }
  match attempt env.userWriteError (db.insertUser createdUser) with
  | .error _ =>
    ⟨.next ⟨"Signup failed, please try again", 500⟩, db, t ++ [.hash, .saveUser createdUser.id]⟩
  | .ok db2 =>
  match env.sign createdUser.id createdUser.email with
  | none =>
    match resolveIdent signCatchScope "error" with
    | .error e => ⟨.thrown e, db2, t ++ [.hash, .saveUser createdUser.id, .sign]⟩
    | .ok _ =>
      ⟨.next ⟨"Signup failed, please try again", 500⟩, db2,
        t ++ [.hash, .saveUser createdUser.id, .sign]⟩
  | some token =>
    ⟨.json 201 (.auth createdUser.id createdUser.email token), db2,
      t ++ [.hash, .saveUser createdUser.id, .sign]⟩

/-- The handler `login` (users-controller.js, lines 97-149). -/
def login (db : Db) (env : Env) (req : LoginReq) : Result :=
  let t := [.findUserByEmail req.email]
  if env.findFails then
    ⟨.next ⟨"Logging in failed, please try again later", 500⟩, db, t⟩
  else
  match db.findUserByEmail req.email with
  | none => ⟨.next ⟨"Credentials seem to be wrong.", 401⟩, db, t⟩
  | some existingUser =>
  match env.compare req.password existingUser.password with
  | none =>
    ⟨.next ⟨"Could not log you in, please check your credentials and try again", 500⟩, db,
      t ++ [.compare]⟩
  | some isValidPassword =>
  if !isValidPassword then
    ⟨.next ⟨"Credentials seem to be wrong.", 403⟩, db, t ++ [.compare]⟩
  else
  match env.sign existingUser.id existingUser.email with
  | none =>
    match resolveIdent signCatchScope "error" with
    | .error e => ⟨.thrown e, db, t ++ [.compare, .sign]⟩
    | .ok _ => ⟨.next ⟨"Login failed, please try again", 500⟩, db, t ++ [.compare, .sign]⟩
  | some token =>
    ⟨.json 200 (.auth existingUser.id existingUser.email token), db, t ++ [.compare, .sign]⟩

/-! ## Sample data -/

/-- A collaborator environment in which nothing fails. -/
def healthyEnv : Env :=
  { geocode := fun _ => .ok ⟨0, 0⟩
    newId := "p1"
    findFails := false
    startSessionFails := false
    placeWriteError := none
    userWriteError := none
    commitFails := false
    hash := fun pw _ => some ("hash:" ++ pw)
    compare := fun pw h => some (decide ("hash:" ++ pw = h))
    sign := fun uid _ => some ("token:" ++ uid) }

/-- User `u1`, owner of no place yet. -/
def u1 : User :=
  { id := "u1", name := "Ann", email := "a@x.com", image := "a.png",
    password := "hash:secret", places := [] }

/-- User `u2`. -/
def u2 : User :=
  { id := "u2", name := "Bob", email := "b@x.com", image := "b.png",
    password := "hash:hunter2", places := [] }

/-- Place `p1`, created by `u1`. -/
def p1 : Place :=
  { id := "p1", title := "Tower", description := "A tower", address := "1 Main St",
    location := ⟨0, 0⟩, image := "t.png", creator := "u1" }

/-- Two users, no places. -/
def dbUsers : Db := { users := [u1, u2], places := [] }

/-- Two users and the place `p1`, linked to `u1`. -/
def dbLinked : Db := { users := [{ u1 with places := ["p1"] }, u2], places := [p1] }

/-- The request creating `p1` on behalf of `u1`. -/
def reqTower : CreatePlaceReq :=
  { valid := true, title := "Tower", description := "A tower", address := "1 Main St",
    creator := "u1", file := some "t.png" }

/-- A creation request naming a creator that is not registered. -/
def reqGhost : CreatePlaceReq := { reqTower with creator := "ghost" }

/-- A registration request for the address `a@x.com`, already used by `u1`. -/
def reqAnnAgain : SignupReq :=
  { valid := true, name := "Ann II", email := "a@x.com", password := "pw", file := some "c.png" }

/-- A registration request for an address nobody uses yet. -/
def reqCarl : SignupReq :=
  { valid := true, name := "Carl", email := "c@x.com", password := "pw", file := some "c.png" }

/-- The save of the user document throws inside the creation transaction. -/
def envBacklinkFails : Env := { healthyEnv with userWriteError := some .other }

/-- The save of the new user document hits the unique index on `email`. -/
def envDuplicateKey : Env :=
  { healthyEnv with newId := "u3", userWriteError := some .duplicateKey }

/-! ## Relationship invariants and operation sequences -/

/-- Every place id held in some user's `places` array, with multiplicity. -/
def backlinks (db : Db) : List Id :=
  (db.users.map User.places).flatten

/-- I1: the creator of every place is an existing user. -/
@[reducible] def I1 (db : Db) : Prop :=
  ∀ p ∈ db.places, (db.findUserById p.creator).isSome = true

/-- I2: every id in a user's `places` names an existing place created by that user. -/
@[reducible] def I2 (db : Db) : Prop :=
  ∀ u ∈ db.users, ∀ pid ∈ u.places, ∃ p ∈ db.places, p.id = pid ∧ p.creator = u.id

/-- I3: no place id is held twice (neither by two users nor twice by one), and
the id of every existing place is held. -/
@[reducible] def I3 (db : Db) : Prop :=
  (backlinks db).Nodup ∧ ∀ p ∈ db.places, p.id ∈ backlinks db

/-- The conjunction of I1, I2 and I3. -/
@[reducible] def Consistent (db : Db) : Prop :=
  I1 db ∧ I2 db ∧ I3 db

/-- One mutation request together with the behaviour of the collaborators
while it is served. -/
inductive Op where
  | create (env : Env) (req : CreatePlaceReq)
  | update (env : Env) (req : UpdatePlaceReq)
  | delete (env : Env) (req : DeletePlaceReq)

/-- Serve one request. -/
def Op.apply (db : Db) : Op → Result
  | .create env req => createPlace db env req
  | .update env req => updatePlace db env req
  | .delete env req => deletePlace db env req

/-- Serve requests one after another; the committed store after the last one. -/
def run (db : Db) : List Op → Db
  | [] => db
  | op :: ops => run (op.apply db).db ops

/-! ## Store lemmas -/

theorem strictNe_bool_str (b : Bool) (s : String) :
    JsVal.strictNe (.bool b) (.str s) = true := rfl

theorem evalCreatorId_places (place : PopulatedPlace) :
    evalCreatorId (deletePlaceScope place) "places" = .error (.referenceError "places") := by
  rfl

theorem resolveIdent_error :
    resolveIdent signCatchScope "error" = .error (.referenceError "error") := by
  rfl

theorem mem_replaceUser {doc v : User} {us : List User} (h : v ∈ replaceUser doc us) :
    v = doc ∨ v ∈ us := by
  induction us with
  | nil => simp [replaceUser] at h
  | cons a us ih =>
    unfold replaceUser at h
    split at h
    · rcases List.mem_cons.mp h with h | h
      · exact Or.inl h
      · exact Or.inr (List.mem_cons_of_mem _ h)
    · rcases List.mem_cons.mp h with h | h
      · exact Or.inr (h ▸ List.mem_cons_self _ _)
      · rcases ih h with h | h
        · exact Or.inl h
        · exact Or.inr (List.mem_cons_of_mem _ h)

theorem find?_replaceUser_isSome (doc : User) (us : List User) (i : Id) :
    ((replaceUser doc us).find? (fun u => decide (u.id = i))).isSome
      = (us.find? (fun u => decide (u.id = i))).isSome := by
  induction us with
  | nil => rfl
  | cons a us ih =>
    unfold replaceUser
    by_cases h : a.id = doc.id
    · by_cases hi : a.id = i
      · have hd : doc.id = i := h ▸ hi
        simp [h, hi, hd, List.find?_cons]
      · have hd : ¬ doc.id = i := fun e => hi (h.trans e)
        simp [h, hi, hd, List.find?_cons]
    · rw [if_neg h]
      by_cases hi : a.id = i
      · simp [hi, List.find?_cons]
      · simp [hi, List.find?_cons, ih]

theorem find?_replaceUser_self (doc : User) (us : List User)
    (h : (us.find? (fun u => decide (u.id = doc.id))).isSome = true) :
    (replaceUser doc us).find? (fun u => decide (u.id = doc.id)) = some doc := by
  induction us with
  | nil => simp at h
  | cons a us ih =>
    unfold replaceUser
    by_cases ha : a.id = doc.id
    · simp [ha, List.find?_cons]
    · simp only [List.find?_cons, ha, decide_False] at h
      simp [ha, List.find?_cons, ih h]

theorem backlinks_replaceUser_push (us : List User) (user : User) (i pid : Id)
    (hfind : us.find? (fun u => decide (u.id = i)) = some user) :
    List.Perm ((replaceUser { user with places := user.places ++ [pid] } us).map User.places).flatten
      (pid :: (us.map User.places).flatten) := by
  induction us with
  | nil => simp at hfind
  | cons a us ih =>
    have hid : user.id = i := by
      have := List.find?_some hfind
      simpa using this
    unfold replaceUser
    by_cases ha : a.id = i
    · have hau : a = user := by
        simpa [List.find?_cons, ha] using hfind
      subst hau
      simp only [if_true, List.map_cons, List.flatten_cons, List.append_assoc,
        List.singleton_append]
      exact List.perm_middle
    · have hne : ¬ a.id = user.id := fun e => ha (e.trans hid)
      have hrest : us.find? (fun u => decide (u.id = i)) = some user := by
        simpa [List.find?_cons, ha] using hfind
      simp only [hne, if_false, List.map_cons, List.flatten_cons]
      exact ((ih hrest).append_left a.places).trans List.perm_middle

/-! ## What each place handler does to the committed store -/

theorem updatePlace_db (db : Db) (env : Env) (req : UpdatePlaceReq) :
    (updatePlace db env req).db = db := by
  unfold updatePlace
  simp only [strictNe_bool_str]
  split
  · rfl
  · split
    · rfl
    · split <;> rfl

theorem deletePlace_db (db : Db) (env : Env) (req : DeletePlaceReq) :
    (deletePlace db env req).db = db := by
  unfold deletePlace
  simp only [evalCreatorId_places]
  split
  · rfl
  · split <;> rfl

@[simp] theorem newPlace_id (env : Env) (req : CreatePlaceReq) (loc : Location) (path : String) :
    (newPlace env req loc path).id = env.newId := rfl

@[simp] theorem newPlace_creator (env : Env) (req : CreatePlaceReq) (loc : Location)
    (path : String) : (newPlace env req loc path).creator = req.creator := rfl

theorem createPlace_cases (db : Db) (env : Env) (req : CreatePlaceReq) :
    ((createPlace db env req).db = db ∧
        ∀ s b, (createPlace db env req).outcome ≠ .json s b) ∨
    ∃ user loc path,
      db.findUserById req.creator = some user ∧
      env.newId ∉ db.places.map Place.id ∧
      (createPlace db env req).outcome = .json 201 (.createdPlace (newPlace env req loc path)) ∧
      (createPlace db env req).db =
        { users := replaceUser { user with places := user.places ++ [env.newId] } db.users,
          places := db.places ++ [newPlace env req loc path] } := by
  unfold createPlace
  by_cases hv : req.valid = true
  swap
  · left; simp [hv]
  cases hg : env.geocode req.address with
  | error e => left; simp [hv]
  | ok loc =>
  cases hf : req.file with
  | none => left; simp [hv]
  | some path =>
  by_cases hff : env.findFails = true
  · left; simp [hv, hff]
  cases hu : db.findUserById req.creator with
  | none => left; simp [hv, hff]
  | some user =>
  by_cases hs : env.startSessionFails = true
  · left; simp [hv, hff, hs]
  cases hpw : env.placeWriteError with
  | some e => left; simp [hv, hff, hs, attempt]
  | none =>
  by_cases hfresh : env.newId ∈ db.places.map Place.id
  · left
    have : ∃ a ∈ db.places, a.id = env.newId := by simpa using hfresh
    simp [hv, hff, hs, attempt, Db.insertPlace, this]
  cases huw : env.userWriteError with
  | some e =>
    left
    have : ¬ ∃ a ∈ db.places, a.id = env.newId := by simpa using hfresh
    simp [hv, hff, hs, attempt, Db.insertPlace, this]
  | none =>
  have hfresh2 : ¬ ∃ a ∈ db.places, a.id = env.newId := by simpa using hfresh
  by_cases hc : env.commitFails = true
  · left; simp [hv, hff, hs, attempt, Db.insertPlace, hfresh2, hc]
  · right
    refine ⟨user, loc, path, rfl, hfresh, ?_, ?_⟩
    · simp [hv, hff, hs, attempt, Db.insertPlace, hfresh2, hc, newPlace]
    · simp [hv, hff, hs, attempt, Db.insertPlace, hfresh2, hc, newPlace, Db.updateUser]

/-! ## Linking a new place keeps the store consistent -/

theorem consistent_link (db : Db) (user : User) (p : Place) (h : Consistent db)
    (hu : db.findUserById p.creator = some user)
    (hfresh : p.id ∉ db.places.map Place.id) :
    Consistent
      { users := replaceUser { user with places := user.places ++ [p.id] } db.users,
        places := db.places ++ [p] } := by
  obtain ⟨h1, h2, h3n, h3m⟩ := h
  have hmem : user ∈ db.users := List.mem_of_find?_eq_some hu
  have hid : user.id = p.creator := by
    have := List.find?_some hu
    simpa using this
  have hperm := backlinks_replaceUser_push db.users user p.creator p.id hu
  have hnew : p.id ∉ backlinks db := by
    intro hin
    obtain ⟨l, hl, hpl⟩ := List.mem_flatten.mp hin
    obtain ⟨u, hu', rfl⟩ := List.mem_map.mp hl
    obtain ⟨q, hq, hqid, _⟩ := h2 u hu' p.id hpl
    exact hfresh (List.mem_map.mpr ⟨q, hq, hqid⟩)
  refine ⟨?_, ?_, ?_, ?_⟩
  · intro q hq
    show (List.find? _ (replaceUser _ db.users)).isSome = true
    rw [find?_replaceUser_isSome]
    rcases List.mem_append.mp hq with hq | hq
    · exact h1 q hq
    · have : q = p := by simpa using hq
      subst this
      show (db.findUserById q.creator).isSome = true
      rw [hu]; rfl
  · intro u hu' pid hpid
    rcases mem_replaceUser hu' with rfl | hold
    · rcases List.mem_append.mp hpid with hpid | hpid
      · obtain ⟨q, hq, hqid, hqc⟩ := h2 user hmem pid hpid
        exact ⟨q, List.mem_append_left _ hq, hqid, hqc⟩
      · have : pid = p.id := by simpa using hpid
        subst this
        exact ⟨p, by simp, rfl, hid.symm⟩
    · obtain ⟨q, hq, hqid, hqc⟩ := h2 u hold pid hpid
      exact ⟨q, List.mem_append_left _ hq, hqid, hqc⟩
  · show (List.flatten _).Nodup
    rw [hperm.nodup_iff]
    exact List.nodup_cons.mpr ⟨hnew, h3n⟩
  · intro q hq
    show q.id ∈ List.flatten _
    rw [hperm.mem_iff]
    rcases List.mem_append.mp hq with hq | hq
    · exact List.mem_cons_of_mem _ (h3m q hq)
    · have : q = p := by simpa using hq
      subst this
      exact List.mem_cons_self _ _

theorem createPlace_consistent (db : Db) (env : Env) (req : CreatePlaceReq)
    (h : Consistent db) : Consistent (createPlace db env req).db := by
  rcases createPlace_cases db env req with ⟨hdb, _⟩ | ⟨user, loc, path, hu, hfresh, _, hdb⟩
  · rw [hdb]; exact h
  · rw [hdb]
    exact consistent_link db user (newPlace env req loc path) h hu hfresh

theorem apply_consistent (db : Db) (op : Op) (h : Consistent db) :
    Consistent (op.apply db).db := by
  cases op with
  | create env req => exact createPlace_consistent db env req h
  | update env req => show Consistent (updatePlace db env req).db; rw [updatePlace_db]; exact h
  | delete env req => show Consistent (deletePlace db env req).db; rw [deletePlace_db]; exact h

theorem run_consistent (ops : List Op) : ∀ db : Db, Consistent db → Consistent (run db ops) := by
  induction ops with
  | nil => intro db h; exact h
  | cons op ops ih => intro db h; exact ih _ (apply_consistent db op h)

/-! ## Behaviour of the ownership guards -/

theorem updatePlace_found_denied (db : Db) (env : Env) (req : UpdatePlaceReq) (place : Place)
    (hv : req.valid = true) (hf : env.findFails = false)
    (hp : db.findPlaceById req.pid = some place) :
    updatePlace db env req =
      ⟨.next ⟨"You are not allowed to edit this place.", 401⟩, db, [.findPlaceById req.pid]⟩ := by
  simp [updatePlace, hv, hf, hp, strictNe_bool_str]

theorem deletePlace_found_throws (db : Db) (env : Env) (req : DeletePlaceReq) (place : Place)
    (hf : env.findFails = false) (hp : db.findPlaceById req.pid = some place) :
    deletePlace db env req =
      ⟨.thrown (.referenceError "places"), db, [.findPlaceById req.pid]⟩ := by
  simp [deletePlace, hf, hp, evalCreatorId_places]

/-! ## Claims -/

/-- C1 (evaluation at the failing input): the owner `u1` updating their own place
`p1` is turned away by the guard on line 150 with the 401 error, and the store
keeps the old title and description. -/
theorem updatePlace_owner_rejected :
    dbLinked.findPlaceById "p1" = some p1 ∧ p1.creator = "u1" ∧
    updatePlace dbLinked healthyEnv ⟨true, "p1", "New title", "New text", "u1"⟩ =
      ⟨.next ⟨"You are not allowed to edit this place.", 401⟩, dbLinked,
        [.findPlaceById "p1"]⟩ := by
  decide

/-- C2 (evaluation at the failing input): `u2` deleting the place `p1` of `u1`
does not reach the ownership error; the handler ends with an uncaught
`ReferenceError` for `places`, leaving the store as it was. -/
theorem deletePlace_other_user_throws :
    dbLinked.findPlaceById "p1" = some p1 ∧ p1.creator ≠ "u2" ∧
    deletePlace dbLinked healthyEnv ⟨"p1", "u2"⟩ =
      ⟨.thrown (.referenceError "places"), dbLinked, [.findPlaceById "p1"]⟩ := by
  decide

/-- C3 (evaluation at the failing input): the owner `u1` deleting their place `p1`
gets no success response; the handler ends with an uncaught `ReferenceError`
for `places`, and `p1` and its backlink are still stored. -/
theorem deletePlace_owner_throws :
    (deletePlace dbLinked healthyEnv ⟨"p1", "u1"⟩).outcome = .thrown (.referenceError "places") ∧
    (deletePlace dbLinked healthyEnv ⟨"p1", "u1"⟩).db.findPlaceById "p1" = some p1 ∧
    ((deletePlace dbLinked healthyEnv ⟨"p1", "u1"⟩).db.findUserById "u1").map User.places
      = some ["p1"] := by
  decide

/-- C4 (evaluation at the failing input): a login with an unknown email and a
login with a known email and a wrong password carry the same message but
different status codes, 401 and 403. -/
theorem login_failures_differ :
    (login dbUsers healthyEnv ⟨"nobody@x.com", "secret"⟩).outcome
      = .next ⟨"Credentials seem to be wrong.", 401⟩ ∧
    (login dbUsers healthyEnv ⟨"a@x.com", "wrong"⟩).outcome
      = .next ⟨"Credentials seem to be wrong.", 403⟩ := by
  decide

/-- C5: when the store already holds a user with the requested email, `signup`
never writes: the store is unchanged, no password hash is computed and no user
document is saved, so emails stay pairwise distinct if they were; and for a
request that passed validation, with a working lookup, the handler fails with
the 422 `User exists already` error. -/
theorem signup_existing_email (db : Db) (env : Env) (req : SignupReq) (existing : User)
    (hex : existing ∈ db.users) (hemail : existing.email = req.email) :
    (signup db env req).db = db ∧
    Effect.hash ∉ (signup db env req).trace ∧
    (∀ id, Effect.saveUser id ∉ (signup db env req).trace) ∧
    ((db.users.map User.email).Nodup → ((signup db env req).db.users.map User.email).Nodup) ∧
    (req.valid = true → env.findFails = false →
      (signup db env req).outcome
        = .next ⟨"User exists already, please login instead", 422⟩) := by
  have hsome : ∃ u, db.findUserByEmail req.email = some u := by
    have : (db.users.find? (fun u => decide (u.email = req.email))).isSome = true :=
      List.find?_isSome.mpr ⟨existing, hex, by simpa using hemail⟩
    exact Option.isSome_iff_exists.mp this
  obtain ⟨u, hu⟩ := hsome
  have hdb : (signup db env req).db = db := by
    unfold signup
    split
    · rfl
    · split
      · rfl
      · simp [hu]
  refine ⟨hdb, ?_, ?_, ?_, ?_⟩
  · unfold signup
    split
    · simp
    · split
      · simp
      · simp [hu]
  · intro id
    unfold signup
    split
    · simp
    · split
      · simp
      · simp [hu]
  · intro h; rw [hdb]; exact h
  · intro hv hf
    simp [signup, hv, hf, hu]

/-- Witness for C5: registering `a@x.com` again while `u1` holds that address. -/
theorem signup_existing_email_witness :
    (signup dbUsers healthyEnv reqAnnAgain).db = dbUsers ∧
    (signup dbUsers healthyEnv reqAnnAgain).outcome
      = .next ⟨"User exists already, please login instead", 422⟩ :=
  have h := signup_existing_email dbUsers healthyEnv reqAnnAgain u1 (by decide) (by decide)
  ⟨h.1, h.2.2.2.2 (by decide) (by decide)⟩

/-- C6: starting from a store satisfying I1, I2 and I3, the store reached after
any sequence of `createPlace`, `updatePlace` and `deletePlace` requests served
one after another satisfies I1, I2 and I3 again; and whenever `createPlace`
answers 201 for creator `u`, the new place is stored with creator `u` and its
id is in the `places` array of the stored user `u`. -/
theorem invariants_preserved (db : Db) (h : Consistent db) :
    (∀ ops : List Op, Consistent (run db ops)) ∧
    (∀ env req p, (createPlace db env req).outcome = .json 201 (.createdPlace p) →
      p.creator = req.creator ∧ p ∈ (createPlace db env req).db.places ∧
      ∃ u, (createPlace db env req).db.findUserById req.creator = some u ∧
        p.id ∈ u.places) := by
  refine ⟨fun ops => run_consistent ops db h, ?_⟩
  intro env req p hout
  rcases createPlace_cases db env req with ⟨_, hno⟩ | ⟨user, loc, path, hu, _, hout2, hdb⟩
  · exact absurd hout (hno _ _)
  · rw [hout2] at hout
    have hp : newPlace env req loc path = p := by
      injection hout with _ hb
      injection hb
    subst hp
    have hid : user.id = req.creator := by
      have := List.find?_some hu
      simpa using this
    refine ⟨rfl, ?_, ?_⟩
    · rw [hdb]; simp
    · refine ⟨{ user with places := user.places ++ [env.newId] }, ?_, by simp⟩
      rw [hdb]
      have hs : (db.users.find? (fun u => decide (u.id = req.creator))).isSome = true := by
        have : db.users.find? (fun u => decide (u.id = req.creator)) = some user := hu
        rw [this]; rfl
      have := find?_replaceUser_self { user with places := user.places ++ [env.newId] }
        db.users (by simpa [hid] using hs)
      simpa [Db.findUserById, hid] using this

/-- Witness for C6: from two registered users and no place, creating `p1` for
`u1`, then a rejected update and a failed delete, ends in the linked store. -/
theorem invariants_preserved_witness :
    Consistent dbUsers ∧
    Consistent (run dbUsers [.create healthyEnv reqTower,
      .update healthyEnv ⟨true, "p1", "T", "D", "u2"⟩, .delete healthyEnv ⟨"p1", "u2"⟩]) ∧
    run dbUsers [.create healthyEnv reqTower,
      .update healthyEnv ⟨true, "p1", "T", "D", "u2"⟩, .delete healthyEnv ⟨"p1", "u2"⟩]
      = dbLinked :=
  ⟨by decide, (invariants_preserved dbUsers (by decide)).1 _, by decide⟩

/-- C7 (counterexample): when the save of the user document fails inside the
transaction, `createPlace` answers 500 and the committed store is untouched, but
the handler returns without any `abortTransaction` call. -/
theorem createPlace_failure_no_abort :
    createPlace dbUsers envBacklinkFails reqTower =
      ⟨.next ⟨"Creating place failed 2, please try again", 500⟩, dbUsers,
        [.geocode "1 Main St", .findUserById "u1", .startSession, .startTransaction,
         .savePlace "p1", .saveUser "u1"]⟩ ∧
    Effect.abortTransaction ∉ (createPlace dbUsers envBacklinkFails reqTower).trace := by
  decide

/-- C7 (amended): once the transaction is open, if the place insert, the save of
the user document or the commit fails, `createPlace` answers with the 500 error
and the committed store is exactly what it was, so neither write is visible;
the handler itself issues no `abortTransaction`, the transaction is only left
uncommitted. -/
theorem createPlace_failure_after_open (db : Db) (env : Env) (req : CreatePlaceReq)
    (user : User) (loc : Location) (path : String)
    (hv : req.valid = true) (hg : env.geocode req.address = .ok loc)
    (hfile : req.file = some path) (hf : env.findFails = false)
    (hu : db.findUserById req.creator = some user) (hs : env.startSessionFails = false)
    (hfail : (∃ e, attempt env.placeWriteError (db.insertPlace (newPlace env req loc path))
                = .error e) ∨
             (∃ e, env.userWriteError = some e) ∨ env.commitFails = true) :
    (createPlace db env req).outcome
      = .next ⟨"Creating place failed 2, please try again", 500⟩ ∧
    (createPlace db env req).db = db ∧
    Effect.startTransaction ∈ (createPlace db env req).trace ∧
    Effect.abortTransaction ∉ (createPlace db env req).trace := by
  unfold createPlace
  simp only [hv, hg, hfile, hf, hu, hs]
  rcases hfail with ⟨e, he⟩ | hrest
  · simp [he]
  · cases hins : attempt env.placeWriteError (db.insertPlace (newPlace env req loc path)) with
    | error e => simp
    | ok pending =>
      rcases hrest with ⟨e, he⟩ | hc
      · simp [he, attempt]
      · cases huw : env.userWriteError with
        | some e => simp [attempt]
        | none => simp [attempt, hc]

/-- Witness for C7 (amended): the user save fails while `p1` is created for `u1`. -/
theorem createPlace_failure_after_open_witness :
    (createPlace dbUsers envBacklinkFails reqTower).outcome
      = .next ⟨"Creating place failed 2, please try again", 500⟩ ∧
    (createPlace dbUsers envBacklinkFails reqTower).db = dbUsers ∧
    Effect.startTransaction ∈ (createPlace dbUsers envBacklinkFails reqTower).trace ∧
    Effect.abortTransaction ∉ (createPlace dbUsers envBacklinkFails reqTower).trace :=
  createPlace_failure_after_open dbUsers envBacklinkFails reqTower u1 ⟨0, 0⟩ "t.png"
    (by decide) rfl (by decide) (by decide) (by decide) (by decide)
    (Or.inr (Or.inl ⟨.other, by decide⟩))

/-- C8: when the creator id of the request matches no user, `createPlace` leaves
both collections as they were and never opens a session or a transaction; and
for a request that passed validation, geocoding and upload, with a working
lookup, it fails with the 404 `Could not find user` error. -/
theorem createPlace_unknown_creator (db : Db) (env : Env) (req : CreatePlaceReq)
    (hno : db.findUserById req.creator = none) :
    (createPlace db env req).db = db ∧
    Effect.startSession ∉ (createPlace db env req).trace ∧
    Effect.startTransaction ∉ (createPlace db env req).trace ∧
    (req.valid = true → (∃ loc, env.geocode req.address = .ok loc) →
      (∃ path, req.file = some path) → env.findFails = false →
      (createPlace db env req).outcome
        = .next ⟨"Could not find user for the provided id", 404⟩) := by
  refine ⟨?_, ?_, ?_, ?_⟩
  · unfold createPlace
    simp only [hno]
    split
    · rfl
    · split
      · rfl
      · split
        · rfl
        · split <;> rfl
  · unfold createPlace
    simp only [hno]
    split
    · simp
    · split
      · simp
      · split
        · simp
        · split <;> simp
  · unfold createPlace
    simp only [hno]
    split
    · simp
    · split
      · simp
      · split
        · simp
        · split <;> simp
  · rintro hv ⟨loc, hg⟩ ⟨path, hfile⟩ hf
    simp [createPlace, hv, hg, hfile, hf, hno]

/-- Witness for C8: a creation request naming the unregistered creator `ghost`. -/
theorem createPlace_unknown_creator_witness :
    (createPlace dbLinked healthyEnv reqGhost).db = dbLinked ∧
    (createPlace dbLinked healthyEnv reqGhost).outcome
      = .next ⟨"Could not find user for the provided id", 404⟩ :=
  have h := createPlace_unknown_creator dbLinked healthyEnv reqGhost (by decide)
  ⟨h.1, h.2.2.2 (by decide) ⟨⟨0, 0⟩, rfl⟩ ⟨"t.png", by decide⟩ (by decide)⟩

/-- C9 (evaluation at the failing input): updating a place id that matches no
document does not answer 404; the guard on line 150 reads `creator` of the
`null` result and the handler ends with an uncaught `TypeError`. -/
theorem updatePlace_missing_place_throws :
    dbLinked.findPlaceById "p9" = none ∧
    updatePlace dbLinked healthyEnv ⟨true, "p9", "T", "D", "u1"⟩ =
      ⟨.thrown (.typeError "creator"), dbLinked, [.findPlaceById "p9"]⟩ := by
  decide

/-- C10 (counterexample): the pre-check finds no user with `c@x.com`, the save
then fails on the unique index, and `signup` answers with the 500 error, not
with the 422 `User exists already` error. -/
theorem signup_late_duplicate_is_500 :
    dbUsers.findUserByEmail "c@x.com" = none ∧
    envDuplicateKey.userWriteError = some .duplicateKey ∧
    (signup dbUsers envDuplicateKey reqCarl).outcome
      = .next ⟨"Signup failed, please try again", 500⟩ ∧
    (signup dbUsers envDuplicateKey reqCarl).outcome
      ≠ .next ⟨"User exists already, please login instead", 422⟩ := by
  decide

/-- C10 (amended): when the pre-check finds no user with the email and the save
of the new user document fails with a unique-constraint violation, `signup`
fails with the 500 `Signup failed` error, as for any other save failure, and
the user collection is unchanged. -/
theorem signup_late_duplicate (db : Db) (env : Env) (req : SignupReq)
    (hashed path : String)
    (hv : req.valid = true) (hf : env.findFails = false)
    (hno : db.findUserByEmail req.email = none)
    (hh : env.hash req.password 12 = some hashed) (hfile : req.file = some path)
    (hdup : env.userWriteError = some .duplicateKey) :
    (signup db env req).outcome = .next ⟨"Signup failed, please try again", 500⟩ ∧
    (signup db env req).db = db := by
  simp [signup, hv, hf, hno, hh, hfile, hdup, attempt]

/-- Witness for C10 (amended): registering `c@x.com` while the save hits the
unique index. -/
theorem signup_late_duplicate_witness :
    (signup dbUsers envDuplicateKey reqCarl).outcome
      = .next ⟨"Signup failed, please try again", 500⟩ ∧
    (signup dbUsers envDuplicateKey reqCarl).db = dbUsers :=
  signup_late_duplicate dbUsers envDuplicateKey reqCarl "hash:pw" "c.png"
    (by decide) (by decide) (by decide) (by decide) (by decide) (by decide)


end UdemyMERN
